import Mathlib

/-
Verification development for the `windows_automation` package: a shallow
embedding, in Lean 4, of the locator-resolution, capability-normalization,
window-switching and lifecycle logic of:

  - windows_automation/windows_client.py   (WindowsClient)
  - windows_automation/windows_driver.py   (WindowsDriver)
  - windows_automation/windows_driver_factory.py (get_windows_capabilities)

Remote WebDriver calls, `json.loads`, and `element.is_displayed()` are the
external world; they are modelled as explicit environment parameters
(functions that may return a value or fail), so that the control flow of
the embedded code — which call is issued, in which order, which failures
are swallowed — is exactly the control flow of the Python source.

Python strings are modelled as Lean `String`s; `str.lower`, substring
tests (`x in y`) and `str.replace` are re-implemented structurally below
so that the kernel can evaluate them on concrete inputs.
-/

/-! ## String primitives (models of Python `str` operations) -/

/-- Lower-case a single ASCII character, as Python `str.lower` does on the
ASCII identifiers and titles that occur in this code base. -/
def lowerChar (c : Char) : Char :=
  if 65 ≤ c.toNat ∧ c.toNat ≤ 90 then Char.ofNat (c.toNat + 32) else c

/-- Model of Python `s.lower()`. -/
def pyLower (s : String) : String := ⟨s.data.map lowerChar⟩

/-- `leadsWith pat l` is true when `pat` occurs at the head of `l`. -/
def leadsWith : List Char → List Char → Bool
  | [], _ => true
  | _ :: _, [] => false
  | a :: as, b :: bs => a = b && leadsWith as bs

/-- `subSearch needle hay` is true when `needle` occurs contiguously in
`hay`; helper for `strContainsSub`. -/
def subSearch : List Char → List Char → Bool
  | n, [] => n.isEmpty
  | n, c :: t => leadsWith n (c :: t) || subSearch n t

/-- Model of Python `needle in hay` for strings. -/
def strContainsSub (hay needle : String) : Bool :=
  subSearch needle.data hay.data

/-- Fuel-driven replacement of every occurrence of `pat` (non-empty in all
uses here) by `repl`; helper for `pyReplace`. -/
def replaceAux (pat repl : List Char) : Nat → List Char → List Char
  | 0, s => s
  | _, [] => []
  | fuel + 1, c :: rest =>
    if leadsWith pat (c :: rest) then
      repl ++ replaceAux pat repl fuel (List.drop (pat.length - 1) rest)
    else
      c :: replaceAux pat repl fuel rest

/-- Model of Python `s.replace(pat, repl)` (replaces every occurrence). -/
def pyReplace (s pat repl : String) : String :=
  ⟨replaceAux pat.data repl.data s.data.length s.data⟩

/-! ## Dictionary primitives (models of Python `dict` update / lookup)

Capability sets, window registries and parsed JSON objects are Python
dicts with string keys; they are modelled as association lists with
unique keys, insertion order preserved (`dict` semantics since Python
3.7): updating an existing key overwrites in place, a new key is
appended. -/

/-- Model of Python `d[k] = v`. -/
def dictSet : List (String × String) → String → String → List (String × String)
  | [], k, v => [(k, v)]
  | (k', v') :: rest, k, v =>
    if k' = k then (k, v) :: rest else (k', v') :: dictSet rest k v

/-- Model of Python `d.get(k)` (`none` when the key is absent). -/
def dictGet : List (String × String) → String → Option String
  | [], _ => none
  | (k', v') :: rest, k => if k' = k then some v' else dictGet rest k

/-! ## windows_client.py — data model -/

/-- The five AppiumBy strategies dispatched by `WindowsClient.find_element`
(windows_client.py lines 82-91). -/
inductive By
  | name
  | id
  | xpath
  | className
  | accessibilityId
  deriving DecidableEq, Repr

/-- The `if locator_type == ... / elif ...` dispatch on the lower-cased
`type` field: recognized kinds map to a strategy, anything else falls
through (`none`). -/
def byOfType : String → Option By
  | "name" => some .name
  | "id" => some .id
  | "xpath" => some .xpath
  | "class_name" => some .className
  | "accessibility_id" => some .accessibilityId
  | _ => none

/-- One entry of a locator specification: `locator.get('type', '')` and
`locator.get('value')`. A missing or falsy `value` (Python `None` or `""`)
is modelled as the empty string, matching the single guard
`if not locator_value: continue`. -/
structure Locator where
  type : String
  value : String
  deriving DecidableEq, Repr

/-- The parsed `property_map`: `property_map.get('locators', [])`. -/
structure PropertyMap where
  locators : List Locator
  deriving DecidableEq, Repr

/-- The Python exceptions that the embedded code raises or swallows.
`noSuchElement` carries the full locator list, as the source interpolates
it into the exception message. -/
inductive PyErr
  | noSuchElement (locators : List Locator)
  | noSuchWindow (windowName : String)
  | timeoutException
  | typeError
  | keyError
  | valueError
  | webDriverError
  deriving DecidableEq, Repr

/-- Elements are opaque remote handles; modelled as `Nat`. -/
abbrev Elem := Nat

/-- The remote session's find call `self.driver.find_element(by, value)`:
returns an element or raises (modelled as `Except Unit`). -/
abbrev Env := By → String → Except Unit Elem

/-! ## windows_client.py — find_element (lines 58-96) -/

/-- The `for locator in locators` loop of `find_element`: skip entries with
falsy `value`, skip unrecognized kinds (no branch of the `if/elif` chain
fires, so the loop just continues), issue the remote find for the rest; a
successful find returns immediately, an exception is swallowed
(`except Exception: continue`). Also records the list of remote find calls
issued, in order. -/
def findLoop (env : Env) : List Locator → Except Unit Elem × List (By × String)
  | [] => (.error (), [])
  | l :: rest =>
    if l.value = "" then findLoop env rest
    else
      match byOfType (pyLower l.type) with
      | none => findLoop env rest
      | some b =>
        match env b l.value with
        | .ok e => (.ok e, [(b, l.value)])
        | .error _ =>
          let p := findLoop env rest
          (p.1, (b, l.value) :: p.2)

/-- `WindowsClient.find_element`: run the fallback loop; if it exhausts the
list, raise `NoSuchElementException` carrying the full locator list
(line 96). The second component is the trace of remote find calls. -/
def find_element (env : Env) (pm : PropertyMap) :
    Except PyErr Elem × List (By × String) :=
  let p := findLoop env pm.locators
  (p.1.mapError (fun _ => PyErr.noSuchElement pm.locators), p.2)

/-- A locator entry is attempted by the loop exactly when its value is
non-empty and its (lower-cased) kind is recognized. -/
def qualifies (l : Locator) : Prop :=
  l.value ≠ "" ∧ (byOfType (pyLower l.type)).isSome

/-- `resolvesTo env l e`: the entry qualifies and the remote find call for
it succeeds with element `e`. -/
def resolvesTo (env : Env) (l : Locator) (e : Elem) : Prop :=
  l.value ≠ "" ∧ ∃ b, byOfType (pyLower l.type) = some b ∧ env b l.value = .ok e

/-- `resolves env l`: the entry qualifies and its remote find call
succeeds. -/
def resolves (env : Env) (l : Locator) : Prop :=
  ∃ e, resolvesTo env l e

theorem findLoop_cons_empty (env : Env) (l : Locator) (rest : List Locator)
    (h : l.value = "") : findLoop env (l :: rest) = findLoop env rest := by
  simp [findLoop, h]

theorem findLoop_cons_unrecognized (env : Env) (l : Locator) (rest : List Locator)
    (hv : l.value ≠ "") (hb : byOfType (pyLower l.type) = none) :
    findLoop env (l :: rest) = findLoop env rest := by
  simp [findLoop, hv, hb]

theorem findLoop_cons_ok (env : Env) (l : Locator) (rest : List Locator) (b : By)
    (e : Elem) (hv : l.value ≠ "") (hb : byOfType (pyLower l.type) = some b)
    (he : env b l.value = .ok e) :
    findLoop env (l :: rest) = (.ok e, [(b, l.value)]) := by
  simp [findLoop, hv, hb, he]

theorem findLoop_cons_error (env : Env) (l : Locator) (rest : List Locator) (b : By)
    (u : Unit) (hv : l.value ≠ "") (hb : byOfType (pyLower l.type) = some b)
    (he : env b l.value = .error u) :
    findLoop env (l :: rest)
      = ((findLoop env rest).1, (b, l.value) :: (findLoop env rest).2) := by
  simp [findLoop, hv, hb, he]

theorem findLoop_first_success (env : Env) (l : Locator) (e : Elem)
    (post : List Locator) (hl : resolvesTo env l e) :
    ∀ pre : List Locator, (∀ l' ∈ pre, ¬ resolves env l') →
      (findLoop env (pre ++ l :: post)).1 = .ok e := by
  intro pre
  induction pre with
  | nil =>
    intro _
    obtain ⟨hv, b, hb, henv⟩ := hl
    rw [List.nil_append, findLoop_cons_ok env l post b e hv hb henv]
  | cons l' pre ih =>
    intro hpre
    have hl' : ¬ resolves env l' := hpre l' (by simp)
    have hrest : ∀ x ∈ pre, ¬ resolves env x := fun x hx => hpre x (by simp [hx])
    rw [List.cons_append]
    by_cases hv : l'.value = ""
    · rw [findLoop_cons_empty env l' _ hv]; exact ih hrest
    · cases hb : byOfType (pyLower l'.type) with
      | none => rw [findLoop_cons_unrecognized env l' _ hv hb]; exact ih hrest
      | some b =>
        cases henv : env b l'.value with
        | ok e' => exact absurd ⟨e', hv, b, hb, henv⟩ hl'
        | error u =>
          rw [findLoop_cons_error env l' _ b u hv hb henv]
          exact ih hrest

/-- C1: For every locator specification containing at least one entry that
qualifies (recognized kind, non-empty value) and whose remote find call
succeeds, `find_element` returns the element resolved by the first such
entry in specification order — never a later entry's element, whatever the
later entries would do — and every failing attempt before it is swallowed,
resolution proceeding to the next candidate. -/
theorem find_element_returns_first_success (env : Env) (pre post : List Locator)
    (l : Locator) (e : Elem)
    (hpre : ∀ l' ∈ pre, ¬ resolves env l')
    (hl : resolvesTo env l e) :
    (find_element env ⟨pre ++ l :: post⟩).1 = .ok e := by
  have h := findLoop_first_success env l e post hl pre hpre
  show ((findLoop env (pre ++ l :: post)).1.mapError _) = .ok e
  rw [h]
  rfl

/-- Concrete environment for witnesses: `name`-strategy lookups for
`"ok"` and `"also"` succeed (elements 7 and 8), everything else raises. -/
def envW : Env := fun b v =>
  if b = By.name ∧ v = "ok" then .ok 7
  else if b = By.name ∧ v = "also" then .ok 8
  else .error ()

theorem find_element_returns_first_success_witness :
    (find_element envW ⟨[⟨"name", "ok"⟩, ⟨"name", "also"⟩]⟩).1 = .ok 7 :=
  find_element_returns_first_success envW [] [⟨"name", "also"⟩] ⟨"name", "ok"⟩ 7
    (by intro l' hl'; simp at hl')
    ⟨by decide, By.name, by decide, rfl⟩

theorem findLoop_all_empty (env : Env) :
    ∀ locs : List Locator, (∀ l ∈ locs, l.value = "") →
      findLoop env locs = (.error (), []) := by
  intro locs
  induction locs with
  | nil => intro _; rfl
  | cons l rest ih =>
    intro h
    rw [findLoop_cons_empty env l rest (h l (by simp))]
    exact ih fun x hx => h x (by simp [hx])

/-- C2: For every locator specification in which every entry's value is
empty or absent, `find_element` fails with the Element-not-found outcome
(`NoSuchElementException` carrying the full locator list) and the trace of
remote find calls is empty: each empty-valued entry is skipped without
attempting a lookup. -/
theorem find_element_all_empty_no_calls (env : Env) (pm : PropertyMap)
    (h : ∀ l ∈ pm.locators, l.value = "") :
    find_element env pm = (.error (.noSuchElement pm.locators), []) := by
  show ((findLoop env pm.locators).1.mapError _, (findLoop env pm.locators).2) = _
  rw [findLoop_all_empty env pm.locators h]
  rfl

theorem find_element_all_empty_no_calls_witness :
    find_element envW ⟨[⟨"name", ""⟩, ⟨"id", ""⟩]⟩
      = (.error (.noSuchElement [⟨"name", ""⟩, ⟨"id", ""⟩]), []) :=
  find_element_all_empty_no_calls envW ⟨[⟨"name", ""⟩, ⟨"id", ""⟩]⟩
    (by intro l hl; simp at hl; rcases hl with h | h <;> simp [h])

/-! ## windows_client.py — wait_for_element (lines 227-281)

`wait_for_element(self, obj, timeout=None)` parses
`json.loads(obj["propertyMap"])` (failures propagate — there is no
try/except around the parse), then walks the locator list ONCE, giving
each recognized non-empty entry its own full `WebDriverWait(driver,
timeout)`; a per-entry `TimeoutException` is swallowed by the
`except Exception: continue`, and exhausting the list raises
`NoSuchElementException` (line 281) — the same outcome as `find_element`.
Each call is paired with the wall-clock seconds it consumes. -/

/-- The object passed to the client actions: `obj["propertyMap"]` raises
`KeyError` when absent. -/
structure PyObj where
  propertyMap : Option String
  deriving DecidableEq, Repr

/-- Model of `json.loads`: parses a raw string into a property map or
raises. -/
abbrev ParseEnv := String → Except Unit PropertyMap

/-- Timing behaviour of the remote presence condition for one strategy:
`some (t, e)` when element `e` becomes present `t` seconds after the wait
starts, `none` when it never does. -/
abbrev WaitEnv := By → String → Option (Nat × Elem)

/-- Model of `WebDriverWait(driver, timeout).until(presence_of_element_located
(by, value))`: returns the element once present, with the time consumed;
otherwise consumes the full timeout and raises `TimeoutException`. -/
def webDriverWait (wenv : WaitEnv) (timeout : Nat) (b : By) (v : String) :
    Except PyErr Elem × Nat :=
  match wenv b v with
  | some (t, e) =>
    if t ≤ timeout then (.ok e, t) else (.error .timeoutException, timeout)
  | none => (.error .timeoutException, timeout)

/-- The `for locator in locators` loop of `wait_for_element`: same
skip rules as `findLoop`, but each attempted entry runs a full bounded
wait; any exception is swallowed and the loop continues. Returns the
result together with the total seconds consumed. -/
def waitLoop (wenv : WaitEnv) (timeout : Nat) :
    List Locator → Except Unit Elem × Nat
  | [] => (.error (), 0)
  | l :: rest =>
    if l.value = "" then waitLoop wenv timeout rest
    else
      match byOfType (pyLower l.type) with
      | none => waitLoop wenv timeout rest
      | some b =>
        match webDriverWait wenv timeout b l.value with
        | (.ok e, t) => (.ok e, t)
        | (.error _, t) =>
          let p := waitLoop wenv timeout rest
          (p.1, t + p.2)

/-- `WindowsClient.wait_for_element`: default the timeout to
`self.wait_time` when `None`, read and parse `obj["propertyMap"]`, run the
single-pass wait loop, and on exhaustion raise `NoSuchElementException`
with the full locator list (line 281). -/
def wait_for_element (parse : ParseEnv) (wenv : WaitEnv) (waitTime : Nat)
    (obj : PyObj) (timeoutArg : Option Nat) : Except PyErr Elem × Nat :=
  let timeout := timeoutArg.getD waitTime
  match obj.propertyMap with
  | none => (.error .keyError, 0)
  | some s =>
    match parse s with
    | .error _ => (.error .valueError, 0)
    | .ok pm =>
      let p := waitLoop wenv timeout pm.locators
      (p.1.mapError (fun _ => PyErr.noSuchElement pm.locators), p.2)

theorem waitLoop_cons_empty (wenv : WaitEnv) (timeout : Nat) (l : Locator)
    (rest : List Locator) (h : l.value = "") :
    waitLoop wenv timeout (l :: rest) = waitLoop wenv timeout rest := by
  simp [waitLoop, h]

theorem waitLoop_cons_unrecognized (wenv : WaitEnv) (timeout : Nat) (l : Locator)
    (rest : List Locator) (hv : l.value ≠ "")
    (hb : byOfType (pyLower l.type) = none) :
    waitLoop wenv timeout (l :: rest) = waitLoop wenv timeout rest := by
  simp [waitLoop, hv, hb]

theorem waitLoop_cons_ok (wenv : WaitEnv) (timeout : Nat) (l : Locator)
    (rest : List Locator) (b : By) (e : Elem) (t : Nat) (hv : l.value ≠ "")
    (hb : byOfType (pyLower l.type) = some b)
    (hw : webDriverWait wenv timeout b l.value = (.ok e, t)) :
    waitLoop wenv timeout (l :: rest) = (.ok e, t) := by
  simp [waitLoop, hv, hb, hw]

theorem waitLoop_cons_error (wenv : WaitEnv) (timeout : Nat) (l : Locator)
    (rest : List Locator) (b : By) (err : PyErr) (t : Nat) (hv : l.value ≠ "")
    (hb : byOfType (pyLower l.type) = some b)
    (hw : webDriverWait wenv timeout b l.value = (.error err, t)) :
    waitLoop wenv timeout (l :: rest)
      = ((waitLoop wenv timeout rest).1, t + (waitLoop wenv timeout rest).2) := by
  simp [waitLoop, hv, hb, hw]

theorem webDriverWait_error_time (wenv : WaitEnv) (timeout : Nat) (b : By)
    (v : String) (err : PyErr) (t : Nat)
    (h : webDriverWait wenv timeout b v = (.error err, t)) : t = timeout := by
  rcases hw : wenv b v with _ | ⟨t', e⟩
  · simp [webDriverWait, hw] at h
    exact h.2.symm
  · by_cases ht : t' ≤ timeout
    · simp [webDriverWait, hw, ht] at h
    · simp [webDriverWait, hw, ht] at h
      exact h.2.symm

theorem waitLoop_failure_consumes_timeout (wenv : WaitEnv) (timeout : Nat) :
    ∀ locs : List Locator, (waitLoop wenv timeout locs).1 = .error () →
      (∃ l ∈ locs, qualifies l) → timeout ≤ (waitLoop wenv timeout locs).2 := by
  intro locs
  induction locs with
  | nil => intro _ hq; simp at hq
  | cons l rest ih =>
    intro hfail hq
    by_cases hv : l.value = ""
    · rw [waitLoop_cons_empty wenv timeout l rest hv] at hfail ⊢
      refine ih hfail ?_
      rcases hq with ⟨x, hx, hxq⟩
      rcases List.mem_cons.mp hx with rfl | hx'
      · exact absurd hv hxq.1
      · exact ⟨x, hx', hxq⟩
    · cases hb : byOfType (pyLower l.type) with
      | none =>
        rw [waitLoop_cons_unrecognized wenv timeout l rest hv hb] at hfail ⊢
        refine ih hfail ?_
        rcases hq with ⟨x, hx, hxq⟩
        rcases List.mem_cons.mp hx with rfl | hx'
        · exact absurd hxq.2 (by simp [hb])
        · exact ⟨x, hx', hxq⟩
      | some b =>
        rcases hw : webDriverWait wenv timeout b l.value with ⟨r, t⟩
        cases r with
        | ok e =>
          rw [waitLoop_cons_ok wenv timeout l rest b e t hv hb hw] at hfail
          simp at hfail
        | error err =>
          rw [waitLoop_cons_error wenv timeout l rest b err t hv hb hw]
          have ht : t = timeout := webDriverWait_error_time wenv timeout b l.value err t hw
          subst ht
          exact Nat.le_add_right _ _

/-- C4 (amended): A bounded-wait lookup that fails has consumed at least
the caller-specified timeout whenever at least one entry of the (parsed)
locator specification qualifies (recognized kind, non-empty value); each
attempted entry waits the full timeout. (The original claim extends this
to specifications with no qualifying entry; those fail immediately — see
the counterexample.) -/
theorem wait_for_element_failure_consumes_timeout (parse : ParseEnv)
    (wenv : WaitEnv) (waitTime : Nat) (obj : PyObj) (timeoutArg : Option Nat)
    (s : String) (pm : PropertyMap)
    (hobj : obj.propertyMap = some s) (hparse : parse s = .ok pm)
    (hq : ∃ l ∈ pm.locators, qualifies l)
    (hfail : ∃ err, (wait_for_element parse wenv waitTime obj timeoutArg).1 = .error err) :
    timeoutArg.getD waitTime ≤ (wait_for_element parse wenv waitTime obj timeoutArg).2 := by
  simp only [wait_for_element, hobj, hparse] at hfail ⊢
  rcases hfail with ⟨err, hfail⟩
  have hfl : (waitLoop wenv (timeoutArg.getD waitTime) pm.locators).1 = .error () := by
    rcases hr : (waitLoop wenv (timeoutArg.getD waitTime) pm.locators).1 with u | e
    · rfl
    · rw [hr] at hfail; simp [Except.mapError] at hfail
  exact waitLoop_failure_consumes_timeout wenv (timeoutArg.getD waitTime)
    pm.locators hfl hq

/-- Raw JSON text of a property map holding a single `name` locator with
value `"btn"`. -/
def jsonBtn : String :=
  "\x7b\"locators\": [\x7b\"type\": \"name\", \"value\": \"btn\"\x7d]\x7d"

/-- Raw JSON text of a property map holding a single `name` locator whose
value is empty. -/
def jsonEmptyVal : String :=
  "\x7b\"locators\": [\x7b\"type\": \"name\", \"value\": \"\"\x7d]\x7d"

/-- Concrete `json.loads` behaviour for the two raw strings above. -/
def parseW : ParseEnv := fun s =>
  if s = jsonBtn then .ok ⟨[⟨"name", "btn"⟩]⟩
  else if s = jsonEmptyVal then .ok ⟨[⟨"name", ""⟩]⟩
  else .error ()

/-- A remote in which no element ever becomes present. -/
def wenvNone : WaitEnv := fun _ _ => none

/-- C3: The claim says the bounded-wait lookup retries the whole ordered
fallback until a caller-specified timeout elapses and then fails with a
distinct "timed out waiting for element" (`TimeoutException`) outcome —
which is also what `wait_for_element`'s own docstring declares it raises.
The code instead makes a single pass, giving each qualifying locator its
own full `WebDriverWait`, swallows every per-locator `TimeoutException`,
and on exhaustion raises the same `NoSuchElementException`
Element-not-found outcome as the immediate lookup: on a one-locator
specification with a 5-second timeout against a remote where the element
never appears, the call consumes the wait and ends in `noSuchElement`,
not `timeoutException`. -/
theorem wait_for_element_timeout_raises_not_found :
    wait_for_element parseW wenvNone 30 ⟨some jsonBtn⟩ (some 5)
      = (.error (.noSuchElement [⟨"name", "btn"⟩]), 5) := by rfl

/-- C4 counterexample: a bounded-wait lookup over a specification whose
only entry has an empty value fails having consumed 0 seconds, strictly
less than the caller-specified 5-second timeout, refuting the claim that
every timed-out bounded wait consumes at least the timeout even for
specifications with no qualifying entry. -/
theorem wait_for_element_zero_time_counterexample :
    wait_for_element parseW wenvNone 30 ⟨some jsonEmptyVal⟩ (some 5)
      = (.error (.noSuchElement [⟨"name", ""⟩]), 0) ∧ (0 : Nat) < 5 :=
  ⟨by rfl, by decide⟩

theorem wait_for_element_failure_consumes_timeout_witness :
    (5 : Nat) ≤ (wait_for_element parseW wenvNone 30 ⟨some jsonBtn⟩ (some 5)).2 :=
  wait_for_element_failure_consumes_timeout parseW wenvNone 30 ⟨some jsonBtn⟩
    (some 5) jsonBtn ⟨[⟨"name", "btn"⟩]⟩ rfl (by rfl)
    ⟨⟨"name", "btn"⟩, by simp, ⟨by decide, by decide⟩⟩
    ⟨.noSuchElement [⟨"name", "btn"⟩], by rfl⟩

/-! ## windows_client.py — switch_to_window (lines 152-168)

`switch_to_window(self, window_name)` first consults the lazily built
registry `self.window_handles`; on a hit it switches straight to the
cached handle. Otherwise it walks `self.driver.window_handles`, switching
the driver context to each handle in turn and testing
`window_name.lower() in self.driver.title.lower()`; on the first match it
records the (name, handle) pair, sets `self.current_window`, and returns;
if no handle matches it raises `NoSuchWindowException`. The remote calls
issued are recorded as an event trace. -/

/-- Remote calls issued while switching windows. -/
inductive WinEv
  | listHandles
  | switchTo (handle : String)
  | readTitle (handle : String)
  deriving DecidableEq, Repr

/-- The mutable fields of `WindowsClient` touched by window switching:
`self.window_handles` (the registry) and `self.current_window`. -/
structure ClientState where
  windowHandles : List (String × String)
  currentWindow : Option String
  deriving DecidableEq, Repr

/-- `titleMatches title name` is the loop's test
`window_name.lower() in self.driver.title.lower()`. -/
def titleMatches (title name : String) : Bool :=
  strContainsSub (pyLower title) (pyLower name)

/-- The `for handle in self.driver.window_handles` scan: switch to each
handle (the switch itself is an issued remote call), read the title, stop
and register on the first case-insensitive substring match, raise
`NoSuchWindowException` after exhausting the handles. -/
def scanWindows (titles : String → String) (name : String) (st : ClientState) :
    List String → Except PyErr ClientState × List WinEv
  | [] => (.error (.noSuchWindow name), [])
  | h :: rest =>
    if titleMatches (titles h) name then
      (.ok { windowHandles := dictSet st.windowHandles name h,
             currentWindow := some name },
       [.switchTo h, .readTitle h])
    else
      let p := scanWindows titles name st rest
      (p.1, .switchTo h :: .readTitle h :: p.2)

/-- `WindowsClient.switch_to_window`: cached handles short-circuit the scan
(and, as in the source, leave both the registry and `current_window`
unchanged). -/
def switch_to_window (handles : List String) (titles : String → String)
    (st : ClientState) (name : String) : Except PyErr ClientState × List WinEv :=
  match dictGet st.windowHandles name with
  | some h => (.ok st, [.switchTo h])
  | none =>
    let p := scanWindows titles name st handles
    (p.1, .listHandles :: p.2)

theorem scanWindows_first_match (titles : String → String) (name : String)
    (st : ClientState) (h : String) (post : List String)
    (hmatch : titleMatches (titles h) name = true) :
    ∀ pre : List String, (∀ h' ∈ pre, titleMatches (titles h') name = false) →
      scanWindows titles name st (pre ++ h :: post)
        = (.ok { windowHandles := dictSet st.windowHandles name h,
                 currentWindow := some name },
           pre.foldr (fun h' acc => .switchTo h' :: .readTitle h' :: acc)
             [.switchTo h, .readTitle h]) := by
  intro pre
  induction pre with
  | nil => intro _; simp [scanWindows, hmatch]
  | cons h' pre ih =>
    intro hpre
    have hh' : titleMatches (titles h') name = false := hpre h' (by simp)
    have hrest : ∀ x ∈ pre, titleMatches (titles x) name = false :=
      fun x hx => hpre x (by simp [hx])
    simp only [List.cons_append, scanWindows, hh', Bool.false_eq_true,
      if_false, List.foldr_cons, List.append_eq]
    rw [ih hrest]

theorem scanWindows_no_match (titles : String → String) (name : String)
    (st : ClientState) :
    ∀ handles : List String,
      (∀ h ∈ handles, titleMatches (titles h) name = false) →
      (scanWindows titles name st handles).1 = .error (.noSuchWindow name) := by
  intro handles
  induction handles with
  | nil => intro _; rfl
  | cons h rest ih =>
    intro hall
    have hh : titleMatches (titles h) name = false := hall h (by simp)
    simp only [scanWindows, hh, Bool.false_eq_true, if_false]
    exact ih fun x hx => hall x (by simp [hx])

/-- C7: For a target name not yet in the Window Registry,
`switch_to_window` reads the open handles and switches context to each in
turn; at the first window whose title contains the target name as a
case-insensitive substring it registers the (name, handle) pair, sets the
current window, and stops (no later handle is visited). A later switch to
the same name uses the cached handle directly — its only remote call is
the single context switch, with no handle listing or title read. If no
open window's title matches, it fails with `NoSuchWindowException`. -/
theorem switch_to_window_spec (titles : String → String) (name : String)
    (st : ClientState) :
    (∀ pre h post, dictGet st.windowHandles name = none →
      (∀ h' ∈ pre, titleMatches (titles h') name = false) →
      titleMatches (titles h) name = true →
      switch_to_window (pre ++ h :: post) titles st name
        = (.ok { windowHandles := dictSet st.windowHandles name h,
                 currentWindow := some name },
           .listHandles ::
             pre.foldr (fun h' acc => .switchTo h' :: .readTitle h' :: acc)
               [.switchTo h, .readTitle h]))
    ∧ (∀ h handles, dictGet st.windowHandles name = some h →
        switch_to_window handles titles st name = (.ok st, [.switchTo h]))
    ∧ (∀ handles, dictGet st.windowHandles name = none →
        (∀ h ∈ handles, titleMatches (titles h) name = false) →
        (switch_to_window handles titles st name).1
          = .error (.noSuchWindow name)) := by
  refine ⟨?_, ?_, ?_⟩
  · intro pre h post hmiss hpre hmatch
    simp only [switch_to_window, hmiss]
    rw [scanWindows_first_match titles name st h post hmatch pre hpre]
  · intro h handles hhit
    simp only [switch_to_window, hhit]
  · intro handles hmiss hall
    simp only [switch_to_window, hmiss]
    exact scanWindows_no_match titles name st handles hall

/-- Concrete two-window remote for the C7 witness: handle `"h1"` is titled
`"Main Window"`, handle `"h2"` is titled `"Settings"`. -/
def titlesW : String → String := fun h =>
  if h = "h1" then "Main Window" else if h = "h2" then "Settings" else ""

theorem switch_to_window_spec_witness :
    switch_to_window ["h1", "h2"] titlesW ⟨[], none⟩ "settings"
        = (.ok ⟨[("settings", "h2")], some "settings"⟩,
           [.listHandles, .switchTo "h1", .readTitle "h1",
            .switchTo "h2", .readTitle "h2"])
      ∧ switch_to_window ["h1", "h2"] titlesW ⟨[("settings", "h2")], some "settings"⟩
          "settings" = (.ok ⟨[("settings", "h2")], some "settings"⟩, [.switchTo "h2"]) := by
  constructor
  · have h := (switch_to_window_spec titlesW "settings" ⟨[], none⟩).1
      ["h1"] "h2" [] rfl
      (by
        intro h' hh'
        simp only [List.mem_singleton] at hh'
        subst hh'
        decide)
      (by decide)
    simpa using h
  · exact (switch_to_window_spec titlesW "settings"
      ⟨[("settings", "h2")], some "settings"⟩).2.1 "h2" ["h1", "h2"] rfl

/-! ## windows_driver_factory.py — get_windows_capabilities (lines 28-96)

The function builds a `WindowsOptions` object from the external
appium-python-client library. That library's `AppiumOptions.set_capability`
stores a capability under its bare name when the name is a W3C-standard
capability or already namespaced (contains a colon), and under
`appium:<name>` otherwise; the `options.app` setter is
`set_capability("app", value)`; a fresh `WindowsOptions()` starts with no
capabilities that the source's membership checks react to. The capability
set itself is the options object's dict, modelled as an association
list. -/

/-- The W3C-standard capability names recognized by the external options
library; only `platformName` matters to this code base. -/
def w3cCapabilityNames : List String :=
  ["acceptInsecureCerts", "browserName", "browserVersion", "platformName",
   "pageLoadStrategy", "proxy", "setWindowRect", "timeouts",
   "unhandledPromptBehavior"]

/-- True when the name is already vendor-namespaced. -/
def hasColon (s : String) : Bool := s.data.contains ':'

/-- The storage key chosen by the external `set_capability`. -/
def fullCapName (name : String) : String :=
  if name ∈ w3cCapabilityNames ∨ hasColon name = true then name
  else "appium:" ++ name

/-- Model of the external `options.set_capability(name, value)`. -/
def setCapability (caps : List (String × String)) (name value : String) :
    List (String × String) :=
  dictSet caps (fullCapName name) value

/-- The `desktopDevice` part of the request configuration:
`grid.hubUrl` (optional), `appPath` (`''` when absent) and
`desiredCapabilities` (a flat string dict, iterated in order). -/
structure DesktopDevice where
  hubUrl : Option String
  appPath : String
  desiredCapabilities : List (String × String)

/-- Lines 42-69: set `options.app` when `app_path` is truthy, then copy
every caller capability through `set_capability` under its cleaned key
`key.replace('appium:', '')`. (The source's three branches — the
`appTopLevelWindow` special case, `ms:`-namespaced keys, and the standard
case — all execute exactly `options.set_capability(clean_key, value)` and
differ only in logging.) -/
def capsAfterCaller (req : DesktopDevice) : List (String × String) :=
  let caps0 : List (String × String) := []
  let caps1 :=
    if req.appPath = "" then caps0 else setCapability caps0 "app" req.appPath
  req.desiredCapabilities.foldl
    (fun acc kv => setCapability acc (pyReplace kv.1 "appium:" "") kv.2) caps1

/-- Lines 71-82: inject the three defaults, each guarded by the source's
own membership test — a substring test over the stored keys for
`automationName` and `deviceName`, an exact-key test for
`platformName`. -/
def capsWithDefaults (caps : List (String × String)) : List (String × String) :=
  let c1 :=
    if caps.any (fun p => strContainsSub p.1 "automationName") = true then caps
    else setCapability caps "automationName" "Windows"
  let c2 :=
    if c1.any (fun p => p.1 == "platformName") = true then c1
    else setCapability c1 "platformName" "Windows"
  if c2.any (fun p => strContainsSub p.1 "deviceName") = true then c2
  else setCapability c2 "deviceName" "WindowsPC"

/-- Lines 84-93: if no stored key case-insensitively contains `app` and
none contains `apptoplevelwindow`, fall back to `appPath` when truthy;
when that is empty too the source only logs a warning and proceeds —
there is no failure path. -/
def ensureAppCapability (caps : List (String × String)) (appPath : String) :
    List (String × String) :=
  let hasApp := caps.any fun p => strContainsSub (pyLower p.1) "app"
  let hasTop := caps.any fun p => strContainsSub (pyLower p.1) "apptoplevelwindow"
  if hasApp = false ∧ hasTop = false then
    if appPath = "" then caps else setCapability caps "app" appPath
  else caps

/-- `get_windows_capabilities(req)`: resolve the hub URL (line 39, default
`http://127.0.0.1:4721`) and normalize the capability set through the
three stages above. -/
def get_windows_capabilities (req : DesktopDevice) :
    List (String × String) × String :=
  let hub_url := req.hubUrl.getD "http://127.0.0.1:4721"
  (ensureAppCapability (capsWithDefaults (capsAfterCaller req)) req.appPath,
   hub_url)

/-- Look a capability up by its cleaned (vendor-namespace-stripped) name,
the way the specification's Capability Set is keyed. -/
def capGetClean (caps : List (String × String)) (name : String) : Option String :=
  dictGet (caps.map fun p => (pyReplace p.1 "appium:" "", p.2)) name

/-- C5: For the configuration `{appPath: "X.exe", desiredCapabilities: {}}`,
capability normalization produces a set whose cleaned keys carry the
defaults `platformName = "Windows"`, `automationName = "Windows"`,
`deviceName = "WindowsPC"` and the application-path capability
`app = "X.exe"`; and with neither an application path nor a top-level
window available (`appPath` empty, no caller capabilities), normalization
still completes normally, returning the three defaults — the missing app
capability is warning-only, with no failure path. -/
theorem get_windows_capabilities_defaults :
    capGetClean (get_windows_capabilities ⟨none, "X.exe", []⟩).1 "platformName"
        = some "Windows"
    ∧ capGetClean (get_windows_capabilities ⟨none, "X.exe", []⟩).1 "automationName"
        = some "Windows"
    ∧ capGetClean (get_windows_capabilities ⟨none, "X.exe", []⟩).1 "deviceName"
        = some "WindowsPC"
    ∧ capGetClean (get_windows_capabilities ⟨none, "X.exe", []⟩).1 "app"
        = some "X.exe"
    ∧ (get_windows_capabilities ⟨none, "", []⟩).1
        = [("appium:automationName", "Windows"), ("platformName", "Windows"),
           ("appium:deviceName", "WindowsPC")] := by
  refine ⟨by decide, by decide, by decide, by decide, by decide⟩

theorem dictGet_dictSet_ne (k K v : String) (hne : k ≠ K) :
    ∀ caps, dictGet (dictSet caps K v) k = dictGet caps k := by
  intro caps
  induction caps with
  | nil => simp [dictSet, dictGet, Ne.symm hne]
  | cons p rest ih =>
    rcases p with ⟨k', v'⟩
    by_cases h : k' = K
    · subst h
      simp [dictSet, dictGet, Ne.symm hne]
    · simp only [dictSet, if_neg h, dictGet]
      by_cases hk : k' = k
      · simp [hk]
      · simp [hk, ih]

theorem dictGet_some_mem (k v : String) :
    ∀ caps, dictGet caps k = some v → ∃ p ∈ caps, p.1 = k := by
  intro caps
  induction caps with
  | nil => intro h; simp [dictGet] at h
  | cons p rest ih =>
    rcases p with ⟨k', v'⟩
    intro h
    by_cases hk : k' = k
    · exact ⟨(k', v'), by simp, hk⟩
    · simp only [dictGet, if_neg hk] at h
      obtain ⟨q, hq, hqk⟩ := ih h
      exact ⟨q, by simp [hq], hqk⟩

theorem any_key_of_dictGet (caps : List (String × String)) (k v : String)
    (f : String → Bool) (h : dictGet caps k = some v) (hf : f k = true) :
    (caps.any fun p => f p.1) = true := by
  obtain ⟨p, hp, hpk⟩ := dictGet_some_mem k v caps h
  exact List.any_eq_true.mpr ⟨p, hp, by rw [hpk]; exact hf⟩

theorem dictGet_preserved_default (caps : List (String × String)) (k v : String)
    (f : String → Bool) (name value : String) (hf : f (fullCapName name) = true)
    (h : dictGet caps k = some v) :
    dictGet (if (caps.any fun p => f p.1) = true then caps
             else setCapability caps name value) k = some v := by
  by_cases hg : (caps.any fun p => f p.1) = true
  · rw [if_pos hg]; exact h
  · rw [if_neg hg]
    have hne : k ≠ fullCapName name := by
      intro hk
      apply hg
      apply any_key_of_dictGet caps k v f h
      rw [hk]
      exact hf
    rw [setCapability, dictGet_dictSet_ne k (fullCapName name) value hne caps]
    exact h

theorem dictGet_preserved_capsWithDefaults (caps : List (String × String))
    (k v : String) (h : dictGet caps k = some v) :
    dictGet (capsWithDefaults caps) k = some v := by
  unfold capsWithDefaults
  dsimp only
  refine dictGet_preserved_default _ k v (fun s => strContainsSub s "deviceName")
    "deviceName" "WindowsPC" (by decide) ?_
  refine dictGet_preserved_default _ k v (fun s => s == "platformName")
    "platformName" "Windows" (by decide) ?_
  exact dictGet_preserved_default _ k v (fun s => strContainsSub s "automationName")
    "automationName" "Windows" (by decide) h

theorem dictGet_preserved_ensureApp (caps : List (String × String))
    (appPath k v : String) (h : dictGet caps k = some v) :
    dictGet (ensureAppCapability caps appPath) k = some v := by
  unfold ensureAppCapability
  dsimp only
  by_cases hg : ((caps.any fun p => strContainsSub (pyLower p.1) "app") = false
      ∧ (caps.any fun p => strContainsSub (pyLower p.1) "apptoplevelwindow") = false)
  · rw [if_pos hg]
    by_cases hp : appPath = ""
    · rw [if_pos hp]; exact h
    · rw [if_neg hp]
      have hne : k ≠ fullCapName "app" := by
        rintro rfl
        have := any_key_of_dictGet caps _ v
          (fun s => strContainsSub (pyLower s) "app") h (by decide)
        rw [hg.1] at this
        exact Bool.false_ne_true this
      rw [setCapability, dictGet_dictSet_ne k (fullCapName "app") appPath hne caps]
      exact h
  · rw [if_neg hg]; exact h

/-- C6: For a configuration whose desired capabilities hold the
vendor-prefixed key `appium:platformName`, normalization stores the
capability under the cleaned key `platformName` with its value unchanged
and injects no duplicate default for it — the resulting set holds exactly
one platform entry; and in general every capability present after the
caller's capabilities are applied (cleaned keys, last write wins) survives
normalization with its value intact: the three defaults and the app
fallback only ever add keys whose guard proves them absent. -/
theorem caller_capabilities_take_precedence :
    ((get_windows_capabilities ⟨none, "", [("appium:platformName", "Windows")]⟩).1
        = [("platformName", "Windows"), ("appium:automationName", "Windows"),
           ("appium:deviceName", "WindowsPC")])
    ∧ ∀ (req : DesktopDevice) (k v : String),
        dictGet (capsAfterCaller req) k = some v →
        dictGet (get_windows_capabilities req).1 k = some v := by
  refine ⟨by decide, ?_⟩
  intro req k v h
  show dictGet (ensureAppCapability (capsWithDefaults (capsAfterCaller req))
    req.appPath) k = some v
  exact dictGet_preserved_ensureApp _ req.appPath k v
    (dictGet_preserved_capsWithDefaults _ k v h)

theorem caller_capabilities_take_precedence_witness :
    dictGet (get_windows_capabilities
        ⟨none, "", [("appium:platformName", "Windows")]⟩).1 "platformName"
      = some "Windows" :=
  caller_capabilities_take_precedence.2
    ⟨none, "", [("appium:platformName", "Windows")]⟩ "platformName" "Windows"
    (by decide)

/-! ## windows_driver.py — WindowsDriver lifecycle (lines 46-66)

`quit` runs two independent try/except blocks: if `self.driver` is set and
truthy it calls `self.driver.quit()`, logging and suppressing any
exception; then, regardless of the first block's outcome, if
`self.service` is set and truthy it calls `self.service.stop()`, again
logging and suppressing any exception. `__exit__` (context-manager exit,
normal or exceptional) simply calls `quit`. -/

/-- Which cleanup resources exist and whether their release throws. -/
structure CleanupEnv where
  hasDriver : Bool
  driverQuitFails : Bool
  hasService : Bool
  serviceStopFails : Bool
  deriving DecidableEq, Repr

/-- The cleanup calls issued. -/
inductive CleanupEv
  | driverQuit
  | serviceStop
  deriving DecidableEq, Repr

/-- A remote/process release call that may raise. -/
def releaseStep (fails : Bool) : Except Unit Unit :=
  if fails then .error () else .ok ()

/-- One `try: step() except Exception as e: logger.error(...)` block:
the step's failure is observed (logged) and suppressed. -/
def tryExceptLogged (step : Except Unit Unit) : Except PyErr Unit :=
  match step with
  | .ok _ => .ok ()
  | .error _ => .ok ()

/-- `WindowsDriver.quit`: attempt the driver release when a driver handle
is present, then attempt the service stop when a service handle is
present, each inside its own suppressing try/except; returns the overall
outcome together with the calls attempted, in order. -/
def quit (env : CleanupEnv) : Except PyErr Unit × List CleanupEv :=
  let driverPart : Except PyErr Unit × List CleanupEv :=
    if env.hasDriver then
      (tryExceptLogged (releaseStep env.driverQuitFails), [.driverQuit])
    else (.ok (), [])
  let servicePart : Except PyErr Unit × List CleanupEv :=
    if env.hasService then
      (tryExceptLogged (releaseStep env.serviceStopFails), [.serviceStop])
    else (.ok (), [])
  match driverPart, servicePart with
  | (_, evs1), (_, evs2) => (.ok (), evs1 ++ evs2)

/-- `WindowsDriver.__exit__`: calls `quit` whether the scope exited
normally or with an exception (the arguments are only the exception
triple, unused). -/
def exitHandler (env : CleanupEnv) : Except PyErr Unit × List CleanupEv :=
  quit env

/-- C8: Session cleanup — `quit`, also invoked by context-manager exit
whether normal or exceptional — attempts the remote-session release
exactly when a driver handle is present and the local service stop
exactly when a locally owned service handle is present, each attempted
regardless of whether the other fails (the trace is the same whatever the
failure flags say); every failure in either step is suppressed, so the
cleanup call never raises to the caller. -/
theorem quit_never_raises_attempts_both (env : CleanupEnv) :
    quit env = (.ok (), (if env.hasDriver then [CleanupEv.driverQuit] else [])
        ++ (if env.hasService then [CleanupEv.serviceStop] else []))
    ∧ exitHandler env = quit env
    ∧ (env.hasDriver = true → CleanupEv.driverQuit ∈ (quit env).2)
    ∧ (env.hasService = true → CleanupEv.serviceStop ∈ (quit env).2) := by
  refine ⟨?_, rfl, ?_, ?_⟩
  · cases hd : env.hasDriver <;> cases hs : env.hasService <;>
      simp [quit, hd, hs]
  · intro hd
    cases hs : env.hasService <;> simp [quit, hd, hs]
  · intro hs
    cases hd : env.hasDriver <;> simp [quit, hd, hs]

theorem quit_never_raises_attempts_both_witness :
    quit ⟨true, true, true, false⟩
      = (.ok (), [CleanupEv.driverQuit, CleanupEv.serviceStop])
    ∧ CleanupEv.serviceStop ∈ (quit ⟨true, true, true, false⟩).2 :=
  ⟨(quit_never_raises_attempts_both ⟨true, true, true, false⟩).1,
   (quit_never_raises_attempts_both ⟨true, true, true, false⟩).2.2.2 rfl⟩

/-! ## windows_driver.py — façade delegation (lines 68-132)

Python calling convention for positional arguments: a call binds its
positional arguments to the callee's parameters; fewer than the required
count or more than the declared count raises `TypeError` before the body
runs. The façade methods delegate to `WindowsClient` as follows
(argument counts exclude `self`):

  - `WindowsDriver.click(element, timeout=10)` calls
    `self.client.click(element, timeout)` — 2 arguments — but
    `WindowsClient.click(self, obj)` declares 1 parameter;
  - `WindowsDriver.enter_text(...)` calls
    `self.client.enter_text(element, text, clear_first, timeout)` — 4
    arguments — but `WindowsClient.enter_text(self, obj, text)` declares 2;
  - `WindowsDriver.get_text(element, timeout=10)` calls
    `self.client.get_text(element, timeout)` — 2 arguments — but
    `WindowsClient.get_text(self, obj)` declares 1;
  - `WindowsDriver.is_visible(element, timeout=10)` calls
    `self.client.is_visible(element, timeout)` — 2 arguments — but
    `WindowsClient.is_visible(self, obj)` declares 1;
  - `WindowsDriver.take_screenshot(filename=None)` calls
    `self.client.take_screenshot(filename)` — 1 argument — and
    `WindowsClient.take_screenshot(self, filename="screenshot.png")`
    accepts it. -/

/-- A Python positional signature: required parameter count and optional
(defaulted) parameter count, excluding `self`. -/
structure PySig where
  required : Nat
  optional : Nat
  deriving DecidableEq, Repr

/-- Whether a call with `n` positional arguments binds against the
signature. -/
def acceptsArgs (sig : PySig) (n : Nat) : Bool :=
  sig.required ≤ n && n ≤ sig.required + sig.optional

/-- Model of a Python positional call: run the body only when the
argument count binds, otherwise raise `TypeError`. -/
def pyCall (sig : PySig) (n : Nat) (body : Except PyErr α) : Except PyErr α :=
  if acceptsArgs sig n then body else .error .typeError

/-- `WindowsClient.click(self, obj)` — windows_client.py line 98. -/
def clientClickSig : PySig := ⟨1, 0⟩

/-- `WindowsClient.enter_text(self, obj, text)` — line 108. -/
def clientEnterTextSig : PySig := ⟨2, 0⟩

/-- `WindowsClient.get_text(self, obj)` — line 120. -/
def clientGetTextSig : PySig := ⟨1, 0⟩

/-- `WindowsClient.is_visible(self, obj)` — line 133. -/
def clientIsVisibleSig : PySig := ⟨1, 0⟩

/-- `WindowsClient.take_screenshot(self, filename="screenshot.png")` —
line 209. -/
def clientTakeScreenshotSig : PySig := ⟨0, 1⟩

/-- `self.client.click(element, timeout)` — windows_driver.py line 79. -/
def facadeClickArgs : Nat := 2

/-- `self.client.enter_text(element, text, clear_first, timeout)` —
line 94. -/
def facadeEnterTextArgs : Nat := 4

/-- `self.client.get_text(element, timeout)` — line 107. -/
def facadeGetTextArgs : Nat := 2

/-- `self.client.is_visible(element, timeout)` — line 120. -/
def facadeIsVisibleArgs : Nat := 2

/-- `self.client.take_screenshot(filename)` — line 132. -/
def facadeTakeScreenshotArgs : Nat := 1

/-- C9: The claim says each façade action on `WindowsDriver` is a pure
delegation producing the same result as the corresponding `WindowsClient`
method. The code contradicts it: the delegating calls for click,
enter-text, get-text and is-visible pass more positional arguments than
the client methods declare, so each such call raises `TypeError` for
every input instead of performing the action — the client body is never
reached. (Only the take-screenshot delegation binds.) -/
theorem facade_delegation_raises_typeerror :
    (∀ body : Except PyErr Unit, pyCall clientClickSig facadeClickArgs body
      = .error .typeError)
    ∧ (∀ body : Except PyErr Unit, pyCall clientEnterTextSig facadeEnterTextArgs body
      = .error .typeError)
    ∧ (∀ body : Except PyErr String, pyCall clientGetTextSig facadeGetTextArgs body
      = .error .typeError)
    ∧ (∀ body : Except PyErr Bool, pyCall clientIsVisibleSig facadeIsVisibleArgs body
      = .error .typeError)
    ∧ acceptsArgs clientTakeScreenshotSig facadeTakeScreenshotArgs = true := by
  refine ⟨fun _ => rfl, fun _ => rfl, fun _ => rfl, fun _ => rfl, by decide⟩

/-! ## windows_client.py — is_visible (lines 133-147)

`is_visible(self, obj)` wraps its whole body in `try/except Exception:
return False`: the body reads `obj["propertyMap"]` (KeyError when
absent), parses it with `json.loads`, resolves the element with
`find_element` (which raises `NoSuchElementException` on exhaustion), and
returns `element.is_displayed()` (a remote call that may itself
raise). -/

/-- The remote `element.is_displayed()` call: a boolean, or a raised
remote error. -/
abbrev DisplayEnv := Elem → Except Unit Bool

/-- The body of `is_visible` before the enclosing try/except: every
failure of the chained steps propagates as the corresponding Python
exception. -/
def isVisibleBody (parse : ParseEnv) (env : Env) (disp : DisplayEnv)
    (obj : PyObj) : Except PyErr Bool :=
  match obj.propertyMap with
  | none => .error .keyError
  | some s =>
    match parse s with
    | .error _ => .error .valueError
    | .ok pm =>
      match (find_element env pm).1 with
      | .error err => .error err
      | .ok el =>
        match disp el with
        | .error _ => .error .webDriverError
        | .ok b => .ok b

/-- `WindowsClient.is_visible`: the body under `try`, with
`except Exception: return False`. -/
def is_visible (parse : ParseEnv) (env : Env) (disp : DisplayEnv)
    (obj : PyObj) : Except PyErr Bool :=
  match isVisibleBody parse env disp obj with
  | .ok b => .ok b
  | .error _ => .ok false

/-- C10: `is_visible` never raises: for every input it returns normally
with a boolean; whenever any step of its body fails — missing or
unparsable property map, the Element-not-found outcome of `find_element`,
or a failing displayed-check — it returns `False` instead of propagating
the failure; and it returns `True` exactly when the body resolves the
element and the displayed-check reports `True`. -/
theorem is_visible_never_raises (parse : ParseEnv) (env : Env)
    (disp : DisplayEnv) (obj : PyObj) :
    (∃ b, is_visible parse env disp obj = .ok b)
    ∧ (∀ err, isVisibleBody parse env disp obj = .error err →
        is_visible parse env disp obj = .ok false)
    ∧ (is_visible parse env disp obj = .ok true
        ↔ isVisibleBody parse env disp obj = .ok true) := by
  refine ⟨?_, ?_, ?_⟩
  · cases hb : isVisibleBody parse env disp obj with
    | ok b => exact ⟨b, by simp [is_visible, hb]⟩
    | error e => exact ⟨false, by simp [is_visible, hb]⟩
  · intro err herr
    simp [is_visible, herr]
  · cases hb : isVisibleBody parse env disp obj with
    | ok b => simp [is_visible, hb]
    | error e => simp [is_visible, hb]

theorem is_visible_never_raises_witness :
    is_visible parseW envW (fun _ => .error ()) ⟨none⟩ = .ok false :=
  (is_visible_never_raises parseW envW (fun _ => .error ()) ⟨none⟩).2.1
    .keyError rfl
